import Mathlib

/-!
# RESTit: the Case execution model and its expectation catalog

A shallow embedding of `case.go`, `response.go` and `tester.go`.

Conventions of the embedding

* A Go `error` is identified with its message: `none` is `nil`, `some m` is an
  error whose `Error()` is `m`.
* Everything the callbacks of the caller may read or write (the decoded
  payload behind the result slot, the state captured by closures, the
  network) is one world state `σ`, threaded explicitly.  `Session.Send`, the
  four methods of `Response` and the `Test` of an `Expectation` are state
  transformers on `σ` that return normally.
* `int` is the 64-bit signed range.  The only arithmetic on an `int` in the
  source is the `i++` of `ExpectResultsValid`, executed under `i < r.Count()`,
  so it never wraps.
* "Is called" and "is never called" are observed on a call log: every call
  site of a callback in the source emits one entry, in program order.
* A `*Case` receiver is the contents of the Case; a builder returns the
  contents the same Case has once the call is over.
-/

namespace Restit

/-! ## Machine integers and formatting -/

/-- Largest value of a Go `int` (64-bit). -/
def maxInt : Int := 9223372036854775807

/-- Smallest value of a Go `int` (64-bit). -/
def minInt : Int := -9223372036854775808

/-- Go `int`: an integer of the 64-bit signed range. -/
abbrev GoInt : Type := { x : Int // minInt ≤ x ∧ x ≤ maxInt }

/-- The verb `%d` of package `fmt` on an `int`: decimal digits, with a leading
minus sign when negative. -/
def fmtD (x : GoInt) : String := toString x.val

/-- A Go `error` value, identified with its message; `none` is `nil`. -/
abbrev GoError : Type := Option String

/-! ## response.go -/

/-- The interface `Response`: `Count`, `NthValid`, `GetNth`, `Match`.  The
items (`interface{}`) are values of `α`. -/
structure Response (σ α : Type) where
  Count : σ → GoInt × σ
  NthValid : GoInt → σ → GoError × σ
  GetNth : GoInt → σ → (α × GoError) × σ
  Match : α → α → σ → GoError × σ

/-- One call of a method of `Response`, as logged by the closures of the
expectation catalog; `Count` carries the value that the call returned. -/
inductive RCall (α : Type) where
  | Count (ret : GoInt)
  | NthValid (i : GoInt)
  | GetNth (n : GoInt)
  | Match (a b : α)

/-! ## case.go: the data model -/

/-- The struct `Expectation`. -/
structure Expectation (σ α : Type) where
  Desc : String
  Test : Response σ α → σ → GoError × σ

/-- The struct `Result`; `Response` is a `*napping.Response`, `none` when nil. -/
structure Result (ρ : Type) where
  Response : Option ρ

/-- A value of type `interface{}` held by the result slot of a request: nil, a
value whose type does not implement `Response`, or one whose type does. -/
inductive Dyn (σ α : Type) where
  | nil
  | other (v : α)
  | response (r : Response σ α)

/-- The type assertion `x.(Response)`: `none` when it panics. -/
def Dyn.asResponse {σ α : Type} : Dyn σ α → Option (Response σ α)
  | .nil => none
  | .other _ => none
  | .response r => some r

/-- The fields of `napping.Request` that the repository reads or writes. -/
structure Request (σ α : Type) where
  Url : String
  Method : String
  Params : Option (List (String × String))
  Payload : Option α
  Result : Dyn σ α

/-- What a call `Session.Send(req)` leaves behind: the two return values, the
contents of `*req` once the call is over, and the world state. -/
structure Sent (σ α ρ : Type) where
  res : Option ρ
  err : GoError
  req : Request σ α
  st : σ

/-- The interface `Session`. -/
structure Session (σ α ρ : Type) where
  Send : Request σ α → σ → Sent σ α ρ

/-- The struct `Tester`. -/
structure Tester where
  Name : String
  Url : String

/-- The struct `Case`; `Tester` is a `*Tester`, `none` when nil. -/
structure Case (σ α ρ : Type) where
  Request : Request σ α
  Session : Session σ α ρ
  Expectations : List (Expectation σ α)
  Tester : Option Tester

/-! ## case.go: Run -/

/-- A call made by `Run`: `Session.Send`, or the `Test` of `Expectations[i]`. -/
inductive Call where
  | send
  | test (i : Nat)
deriving DecidableEq

/-- The value carried by a panic. -/
inductive PanicValue where
  | typeAssertion
  | error (e : String)
deriving DecidableEq

/-- How a call ends: it returns `v`, or it panics. -/
inductive Outcome (β : Type) where
  | ret (v : β)
  | panic (p : PanicValue)

/-- A finished call: its outcome, the world state it leaves, the calls it made. -/
structure Exec (σ β : Type) where
  out : Outcome β
  st : σ
  calls : List Call

/-- The message built by `fmt.Errorf` in `Run`. -/
def failedInTest (desc msg : String) : String :=
  "Failed in test: \"" ++ desc ++ "\" Reason: \"" ++ msg ++ "\""

/-- The state of the loop of `Run` when it is left: the value of `err`, the
world state, and the tests invoked. -/
structure LoopEnd (σ : Type) where
  err : GoError
  st : σ
  calls : List Call

/-- The loop `for i := 0; i < len(c.Expectations); i++` of `Run`, entered at
index `i` with `es` the expectations from `i` on and `err` the current value of
the named result. -/
def runLoop {σ α : Type} (resp : Response σ α) :
    List (Expectation σ α) → Nat → GoError → σ → LoopEnd σ
  | [], _, err, s => ⟨err, s, []⟩
  | e :: es, i, _, s =>
    match e.Test resp s with
    | (some msg, s1) => ⟨some (failedInTest e.Desc msg), s1, [Call.test i]⟩
    | (none, s1) =>
      let l := runLoop resp es (i + 1) none s1
      ⟨l.err, l.st, Call.test i :: l.calls⟩

/-- The method `Case.Run`. -/
def Case.Run {σ α ρ : Type} (c : Case σ α ρ) (s : σ) :
    Exec σ (Option (Result ρ) × GoError) :=
  let sent := c.Session.Send c.Request s
  let r : Option (Result ρ) := some { Response := sent.res }
  match sent.req.Result.asResponse with
  | none => ⟨.panic .typeAssertion, sent.st, [Call.send]⟩
  | some resp =>
    let l := runLoop resp c.Expectations 0 sent.err sent.st
    ⟨.ret (r, l.err), l.st, Call.send :: l.calls⟩

/-- The method `Case.RunOrPanic`. -/
def Case.RunOrPanic {σ α ρ : Type} (c : Case σ α ρ) (s : σ) :
    Exec σ (Option (Result ρ)) :=
  let e := c.Run s
  match e.out with
  | .panic p => ⟨.panic p, e.st, e.calls⟩
  | .ret (_, some err) => ⟨.panic (.error err), e.st, e.calls⟩
  | .ret (r, none) => ⟨.ret r, e.st, e.calls⟩

/-- The method `Case.WithResponseAs`. -/
def Case.WithResponseAs {σ α ρ : Type} (c : Case σ α ρ) (r : Dyn σ α) : Case σ α ρ :=
  { c with Request := { c.Request with Result := r } }

/-- The method `Case.WithParams`. -/
def Case.WithParams {σ α ρ : Type} (c : Case σ α ρ)
    (p : Option (List (String × String))) : Case σ α ρ :=
  { c with Request := { c.Request with Params := p } }

/-! ## case.go: the expectation catalog -/

/-- A finished `Test` of the catalog: the error returned, the world state, and
the methods of `Response` it called. -/
structure TestRun (σ α : Type) where
  err : GoError
  st : σ
  calls : List (RCall α)

/-- The message built by `fmt.Errorf` in the two count tests. -/
def resultCountMsg (count n : GoInt) : String :=
  "Result count is " ++ fmtD count ++ " (expected " ++ fmtD n ++ ")"

/-- The closure appended by `ExpectResultCount(n)`. -/
def Case.ExpectResultCount.Test {σ α : Type} (n : GoInt) (r : Response σ α) (s : σ) :
    GoError × σ :=
  let cs := r.Count s
  if cs.1 ≠ n then (some (resultCountMsg cs.1 n), cs.2) else (none, cs.2)

/-- The method `Case.ExpectResultCount`. -/
def Case.ExpectResultCount {σ α ρ : Type} (c : Case σ α ρ) (n : GoInt) : Case σ α ρ :=
  { c with Expectations := c.Expectations ++
      [{ Desc := "Test Result Count", Test := Case.ExpectResultCount.Test n }] }

/-- The closure appended by `ExpectResultCountNot(n)`. -/
def Case.ExpectResultCountNot.Test {σ α : Type} (n : GoInt) (r : Response σ α) (s : σ) :
    GoError × σ :=
  let cs := r.Count s
  if cs.1 = n then (some (resultCountMsg cs.1 n), cs.2) else (none, cs.2)

/-- The method `Case.ExpectResultCountNot`. -/
def Case.ExpectResultCountNot {σ α ρ : Type} (c : Case σ α ρ) (n : GoInt) : Case σ α ρ :=
  { c with Expectations := c.Expectations ++
      [{ Desc := "Test Result Count", Test := Case.ExpectResultCountNot.Test n }] }

/-- The message built by `fmt.Errorf` in `ExpectResultsValid`. -/
def itemInvalidMsg (i : GoInt) (msg : String) : String :=
  "Item " ++ fmtD i ++ " invalid: " ++ msg

/-- The value of `i` after `i++`, reached only under `i < count`. -/
def GoInt.next (i count : GoInt) (h : i.val < count.val) : GoInt :=
  ⟨i.val + 1, by
    have h1 := i.property.1
    have h2 := count.property.2
    constructor <;> omega⟩

/-- The loop `for i := 0; i < r.Count(); i++` of the closure of
`ExpectResultsValid`, entered at index `i`. -/
def resultsValidLoop {σ α : Type} (r : Response σ α) (i : GoInt) (s : σ) : TestRun σ α :=
  let cs := r.Count s
  if h : i.val < cs.1.val then
    let vs := r.NthValid i cs.2
    match vs.1 with
    | some msg => ⟨some (itemInvalidMsg i msg), vs.2, [.Count cs.1, .NthValid i]⟩
    | none =>
      let l := resultsValidLoop r (i.next cs.1 h) vs.2
      ⟨l.err, l.st, .Count cs.1 :: .NthValid i :: l.calls⟩
  else ⟨none, cs.2, [.Count cs.1]⟩
termination_by (maxInt - i.val).toNat
decreasing_by
  have h2 := cs.1.property.2
  simp only [GoInt.next]
  omega

/-- The index `0` at which the loop of `ExpectResultsValid` starts. -/
def GoInt.zero : GoInt := ⟨0, by decide⟩

/-- The closure appended by `ExpectResultsValid()`. -/
def Case.ExpectResultsValid.Test {σ α : Type} (r : Response σ α) (s : σ) : GoError × σ :=
  let l := resultsValidLoop r GoInt.zero s
  (l.err, l.st)

/-- The method `Case.ExpectResultsValid`. -/
def Case.ExpectResultsValid {σ α ρ : Type} (c : Case σ α ρ) : Case σ α ρ :=
  { c with Expectations := c.Expectations ++
      [{ Desc := "Test Results Valid", Test := Case.ExpectResultsValid.Test }] }

/-- The body of the closure appended by `ExpectResultNth(n, b)`, with the
calls it makes. -/
def resultNthBody {σ α : Type} (n : GoInt) (b : α) (r : Response σ α) (s : σ) :
    TestRun σ α :=
  let g := r.GetNth n s
  match g.1.2 with
  | some msg => ⟨some msg, g.2, [.GetNth n]⟩
  | none =>
    let m := r.Match g.1.1 b g.2
    ⟨m.1, m.2, [.GetNth n, .Match g.1.1 b]⟩

/-- The closure appended by `ExpectResultNth(n, b)`. -/
def Case.ExpectResultNth.Test {σ α : Type} (n : GoInt) (b : α) (r : Response σ α) (s : σ) :
    GoError × σ :=
  let l := resultNthBody n b r s
  (l.err, l.st)

/-- The description built by `fmt.Sprintf` in `ExpectResultNth`. -/
def resultNthDesc (n : GoInt) : String :=
  "Test #" ++ fmtD n ++ " Result Valid"

/-- The method `Case.ExpectResultNth`. -/
def Case.ExpectResultNth {σ α ρ : Type} (c : Case σ α ρ) (n : GoInt) (b : α) : Case σ α ρ :=
  { c with Expectations := c.Expectations ++
      [{ Desc := resultNthDesc n, Test := Case.ExpectResultNth.Test n b }] }

/-- The method `Case.ExpectResultsToPass`. -/
def Case.ExpectResultsToPass {σ α ρ : Type} (c : Case σ α ρ) (desc : String)
    (test : Response σ α → σ → GoError × σ) : Case σ α ρ :=
  { c with Expectations := c.Expectations ++ [{ Desc := desc, Test := test }] }

/-! ## tester.go -/

/-- The function `Rest`. -/
def Rest (name url : String) : Tester :=
  { Name := name, Url := url }

/-- The method `Tester.Create`; `napping` is the `&napping.Session{}` it
allocates. -/
def Tester.Create {σ α ρ : Type} (t : Tester) (napping : Session σ α ρ)
    (payload : Option α) : Case σ α ρ :=
  { Request := { Method := "POST", Url := t.Url, Payload := payload,
                 Params := none, Result := .nil },
    Session := napping, Expectations := [], Tester := some t }

/-- The method `Tester.Retrieve`. -/
def Tester.Retrieve {σ α ρ : Type} (t : Tester) (napping : Session σ α ρ)
    (id : String) : Case σ α ρ :=
  { Request := { Method := "GET", Url := t.Url ++ "/" ++ id, Payload := none,
                 Params := none, Result := .nil },
    Session := napping, Expectations := [], Tester := some t }

/-- The method `Tester.Update`. -/
def Tester.Update {σ α ρ : Type} (t : Tester) (napping : Session σ α ρ)
    (id : String) (payload : Option α) : Case σ α ρ :=
  { Request := { Method := "PUT", Url := t.Url ++ "/" ++ id, Payload := payload,
                 Params := none, Result := .nil },
    Session := napping, Expectations := [], Tester := some t }

/-- The method `Tester.Delete`. -/
def Tester.Delete {σ α ρ : Type} (t : Tester) (napping : Session σ α ρ)
    (id : String) : Case σ α ρ :=
  { Request := { Method := "DELETE", Url := t.Url ++ "/" ++ id, Payload := none,
                 Params := none, Result := .nil },
    Session := napping, Expectations := [], Tester := some t }

/-! ## Test doubles for the scenarios

The world state of the doubles is the number of callback calls made so far. -/

/-- A payload of `count` items, the item at index `n` being the number `n`;
`valid` is what `NthValid` answers, `GetNth` reports an index outside
`[0, count)`, and `Match` compares the two items. -/
def stubResponse (count : GoInt) (valid : GoInt → GoError) : Response Nat Int where
  Count := fun s => (count, s + 1)
  NthValid := fun i s => (valid i, s + 1)
  GetNth := fun n s =>
    if 0 ≤ n.val ∧ n.val < count.val then ((n.val, none), s + 1)
    else ((0, some "index out of range"), s + 1)
  Match := fun a b s => (if a = b then none else some "items differ", s + 1)

/-- A payload of `count` items whose `GetNth` answers every index. -/
def laxResponse (count : GoInt) : Response Nat Int where
  Count := fun s => (count, s + 1)
  NthValid := fun _ s => (none, s + 1)
  GetNth := fun n s => ((n.val, none), s + 1)
  Match := fun a b s => (if a = b then none else some "items differ", s + 1)

/-- A session whose `Send` succeeds and leaves the request as it was. -/
def okSession : Session Nat Int String :=
  ⟨fun req s => ⟨some "200 OK", none, req, s + 1⟩⟩

/-- A session whose `Send` fails with a network error. -/
def downSession : Session Nat Int String :=
  ⟨fun req s => ⟨none, some "connection refused", req, s + 1⟩⟩

/-- The Case `Rest("items", "http://api/items").Retrieve("7")` with the given
session in place of the one of napping. -/
def stubCase (sess : Session Nat Int String) : Case Nat Int String :=
  Tester.Retrieve (Rest "items" "http://api/items") sess "7"

/-- The `int` 1. -/
def int1 : GoInt := ⟨1, by decide⟩

/-- The `int` 2. -/
def int2 : GoInt := ⟨2, by decide⟩

/-- The `int` 3. -/
def int3 : GoInt := ⟨3, by decide⟩

/-- The `int` 5. -/
def int5 : GoInt := ⟨5, by decide⟩

/-- The `int` -1. -/
def intNeg1 : GoInt := ⟨-1, by decide⟩

/-- A payload where every item is valid. -/
def allValid : GoInt → GoError := fun _ => none

/-- A payload whose item 1 lacks a field. -/
def item1Invalid : GoInt → GoError :=
  fun i => if i.val = 1 then some "missing field x" else none

/-- A payload of two items and three expectations: the first passes, the
second fails, the third would pass. -/
def shortCircuitCase : Case Nat Int String :=
  ((((stubCase okSession).WithResponseAs (.response (stubResponse int2 allValid))
    ).ExpectResultCount int2).ExpectResultCount int3).ExpectResultsValid

/-- Scenario A: a payload of three items, and `ExpectResultCount(3)`. -/
def scenarioA : Case Nat Int String :=
  ((stubCase okSession).WithResponseAs (.response (stubResponse int3 allValid))
    ).ExpectResultCount int3

/-- Scenario F: two expectations appended, the first passes, the second fails. -/
def scenarioF : Case Nat Int String :=
  (((stubCase okSession).WithResponseAs (.response (stubResponse int2 allValid))
    ).ExpectResultsToPass "first" (fun _ s => (none, s + 1))
    ).ExpectResultsToPass "second" (fun _ s => (some "boom", s + 1))

/-- A failing `Send` in front of an expectation that passes: a payload of
three items and `ExpectResultCount(3)`. -/
def sendFailsCase : Case Nat Int String :=
  ((stubCase downSession).WithResponseAs (.response (stubResponse int3 allValid))
    ).ExpectResultCount int3

/-- A failing `Send` and no expectation at all. -/
def sendFailsBareCase : Case Nat Int String :=
  (stubCase downSession).WithResponseAs (.response (stubResponse int3 allValid))

/-- Scenario B: a payload of two items, and `ExpectResultCount(3)` appended to
a Case without expectations. -/
def scenarioBBase : Case Nat Int String :=
  (stubCase okSession).WithResponseAs (.response (stubResponse int2 allValid))

/-- Scenario D: a payload of two items, and `ExpectResultNth(5, obj)`. -/
def scenarioD : Case Nat Int String :=
  ((stubCase okSession).WithResponseAs (.response (stubResponse int2 allValid))
    ).ExpectResultNth int5 5

/-- Scenario C: a payload of three items whose item 1 is invalid;
`ExpectResultsValid()` is appended to this Case without expectations. -/
def scenarioCBase : Case Nat Int String :=
  (stubCase okSession).WithResponseAs (.response (stubResponse int3 item1Invalid))

/-- A Case whose result slot holds a value that is no `Response`, with one
expectation. -/
def misconfiguredCase : Case Nat Int String :=
  ((stubCase okSession).WithResponseAs (.other 7)).ExpectResultCount int3

/-- A session whose `Send` hands back a response together with an error. -/
def resetSession : Session Nat Int String :=
  ⟨fun req s => ⟨some "200 OK", some "connection reset", req, s + 1⟩⟩

/-- The Case of scenario A behind a session whose `Send` returns an error. -/
def sendResetCase : Case Nat Int String :=
  ((stubCase resetSession).WithResponseAs (.response (stubResponse int3 allValid))
    ).ExpectResultCount int3

/-- A payload of three items, and `ExpectResultCountNot(3)`. -/
def countNotCase : Case Nat Int String :=
  ((stubCase okSession).WithResponseAs (.response (stubResponse int3 allValid))
    ).ExpectResultCountNot int3

/-- The tester of `http://api/items`, for the four verbs. -/
def itemsTester : Tester := Rest "items" "http://api/items"

/-- The `int` 0. -/
def int0 : GoInt := ⟨0, by decide⟩

/-- A session whose `Send` succeeds and stores a payload of three items in the
result slot of the request it was handed. -/
def fillingSession : Session Nat Int String :=
  ⟨fun req s => ⟨some "200 OK", none,
    { req with Result := Dyn.response (stubResponse int3 allValid) }, s + 1⟩⟩

/-- A Case fresh from `Retrieve` behind that session: `WithResponseAs` is never
called, and `ExpectResultCount(3)` is appended. -/
def lateSlotCase : Case Nat Int String :=
  (stubCase fillingSession).ExpectResultCount int3

/-! ## The loop of Run -/

/-- The loop of `Run` stops at the first expectation whose `Test` fails:
`st j` is the world state in which the test at position `j` is invoked. -/
theorem runLoop_first_failure {σ α : Type} (resp : Response σ α) :
    ∀ (es : List (Expectation σ α)) (i0 : Nat) (err0 : GoError) (st : Nat → σ) (k : Nat)
      (ek : Expectation σ α) (msg : String) (sEnd : σ),
      (∀ j e, j < k → es[j]? = some e → e.Test resp (st j) = (none, st (j + 1))) →
      es[k]? = some ek → ek.Test resp (st k) = (some msg, sEnd) →
      runLoop resp es i0 err0 (st 0) =
        ⟨some (failedInTest ek.Desc msg), sEnd,
          (List.range (k + 1)).map (fun j => Call.test (i0 + j))⟩ := by
  intro es
  induction es with
  | nil => intro i0 err0 st k ek msg sEnd _ hk; simp at hk
  | cons e es ih =>
    intro i0 err0 st k ek msg sEnd hpass hk hfail
    cases k with
    | zero =>
      simp at hk
      subst hk
      simp [runLoop, hfail, List.range_succ]
    | succ k =>
      have h0 : e.Test resp (st 0) = (none, st 1) := hpass 0 e (Nat.succ_pos k) (by simp)
      have hrest := ih (i0 + 1) none (fun j => st (j + 1)) k ek msg sEnd
        (fun j e1 hj he => hpass (j + 1) e1 (Nat.succ_lt_succ hj) (by simpa using he))
        (by simpa using hk) hfail
      simp only [runLoop, h0]
      rw [hrest]
      simp only [LoopEnd.mk.injEq, true_and]
      rw [List.range_succ_eq_map (k + 1)]
      simp [List.map_map, Function.comp_def, Nat.add_assoc, Nat.add_comm 1]

/-- The loop of `Run` over expectations that all pass: every `Test` is
invoked once, in order, and `err` is left nil unless the list is empty. -/
theorem runLoop_all_pass {σ α : Type} (resp : Response σ α) :
    ∀ (es : List (Expectation σ α)) (i0 : Nat) (err0 : GoError) (st : Nat → σ),
      (∀ j e, es[j]? = some e → e.Test resp (st j) = (none, st (j + 1))) →
      runLoop resp es i0 err0 (st 0) =
        ⟨if es.isEmpty then err0 else none, st es.length,
          (List.range es.length).map (fun j => Call.test (i0 + j))⟩ := by
  intro es
  induction es with
  | nil => intro i0 err0 st _; simp [runLoop]
  | cons e es ih =>
    intro i0 err0 st hpass
    have h0 : e.Test resp (st 0) = (none, st 1) := hpass 0 e (by simp)
    have hrest := ih (i0 + 1) none (fun j => st (j + 1))
      (fun j e1 he => hpass (j + 1) e1 (by simpa using he))
    simp only [runLoop, h0]
    rw [hrest]
    simp only [LoopEnd.mk.injEq, List.length_cons, List.isEmpty_cons, Bool.false_eq_true,
      if_false, ite_self, true_and]
    rw [List.range_succ_eq_map es.length]
    simp [List.map_map, Function.comp_def, Nat.add_assoc, Nat.add_comm 1]

/-! ## Run: short-circuit, message format, transport failure, pass-through -/

/-- C1 (short-circuit).  The decoded payload satisfies `Response`, `st j` is the
world state in which the `Test` at position `j` is invoked, the tests before
position `k` return nil and the one at position `k` returns an error: then
`Run` calls `Send`, then the tests at positions `0..k` once each in that
order, and nothing else; the world is left as the failing test left it. -/
theorem Run_short_circuit {σ α ρ : Type} (c : Case σ α ρ) (s : σ) (resp : Response σ α)
    (st : Nat → σ) (k : Nat) (ek : Expectation σ α) (msg : String) (sEnd : σ)
    (hresp : (c.Session.Send c.Request s).req.Result = Dyn.response resp)
    (hst : st 0 = (c.Session.Send c.Request s).st)
    (hpass : ∀ j e, j < k → c.Expectations[j]? = some e →
      e.Test resp (st j) = (none, st (j + 1)))
    (hk : c.Expectations[k]? = some ek)
    (hfail : ek.Test resp (st k) = (some msg, sEnd)) :
    (c.Run s).calls = Call.send :: (List.range (k + 1)).map Call.test ∧
      (c.Run s).st = sEnd := by
  have hloop := runLoop_first_failure resp c.Expectations 0
    (c.Session.Send c.Request s).err st k ek msg sEnd hpass hk hfail
  rw [hst] at hloop
  simp [Case.Run, hresp, Dyn.asResponse, hloop]

/-- Witness of C1: of three expectations the second fails; `Run` invokes the
first two and never the third. -/
theorem Run_short_circuit_witness :
    (shortCircuitCase.Run 0).calls = [Call.send, Call.test 0, Call.test 1] ∧
      (shortCircuitCase.Run 0).st = 3 :=
  Run_short_circuit shortCircuitCase 0 (stubResponse int2 allValid) (fun j => j + 1) 1
    ⟨"Test Result Count", Case.ExpectResultCount.Test int3⟩
    "Result count is 2 (expected 3)" 3 rfl rfl
    (by
      intro j e hj he
      have hj0 : j = 0 := by omega
      subst hj0
      have he1 : e = ⟨"Test Result Count", Case.ExpectResultCount.Test int2⟩ := by
        simpa [shortCircuitCase, Case.ExpectResultsValid, Case.ExpectResultCount,
          Case.WithResponseAs, stubCase, Tester.Retrieve] using he.symm
      subst he1
      rfl)
    rfl (by decide)

/-- C2 (message format).  `Send` succeeds, the decoded payload satisfies
`Response`, and the first failing expectation `ek` fails with message `msg`:
the error returned by `Run` is `Failed in test: "<ek.Desc>" Reason: "<msg>"`. -/
theorem Run_failure_message {σ α ρ : Type} (c : Case σ α ρ) (s : σ) (resp : Response σ α)
    (st : Nat → σ) (k : Nat) (ek : Expectation σ α) (msg : String) (sEnd : σ)
    (_hsend : (c.Session.Send c.Request s).err = none)
    (hresp : (c.Session.Send c.Request s).req.Result = Dyn.response resp)
    (hst : st 0 = (c.Session.Send c.Request s).st)
    (hpass : ∀ j e, j < k → c.Expectations[j]? = some e →
      e.Test resp (st j) = (none, st (j + 1)))
    (hk : c.Expectations[k]? = some ek)
    (hfail : ek.Test resp (st k) = (some msg, sEnd)) :
    (c.Run s).out = Outcome.ret
      (some { Response := (c.Session.Send c.Request s).res },
        some ("Failed in test: \"" ++ ek.Desc ++ "\" Reason: \"" ++ msg ++ "\"")) := by
  have hloop := runLoop_first_failure resp c.Expectations 0
    (c.Session.Send c.Request s).err st k ek msg sEnd hpass hk hfail
  rw [hst] at hloop
  simp [Case.Run, hresp, Dyn.asResponse, hloop, failedInTest]

/-- Witness of C2 (scenario F): two expectations appended, the first passes
and the second fails; the message carries the description of the second. -/
theorem Run_failure_message_witness :
    (scenarioF.Run 0).out = Outcome.ret
      (some { Response := some "200 OK" },
        some "Failed in test: \"second\" Reason: \"boom\"") :=
  Run_failure_message scenarioF 0 (stubResponse int2 allValid) (fun j => j + 1) 1
    ⟨"second", fun _ s => (some "boom", s + 1)⟩ "boom" 3 rfl rfl rfl
    (by
      intro j e hj he
      have hj0 : j = 0 := by omega
      subst hj0
      have he1 : e = ⟨"first", fun _ s => (none, s + 1)⟩ := by
        simpa [scenarioF, Case.ExpectResultsToPass, Case.WithResponseAs, stubCase,
          Tester.Retrieve] using he.symm
      subst he1
      rfl)
    rfl rfl

/-- C3 (transport failure), the code at the failing input: `Send` returns the
error "connection refused", yet `Run` goes on to invoke the `Test` of the one
expectation, which passes, and returns a nil error. -/
theorem Run_send_error_overwritten :
    (sendFailsCase.Session.Send sendFailsCase.Request 0).err = some "connection refused" ∧
      (sendFailsCase.Run 0).out = Outcome.ret (some { Response := none }, none) ∧
      (sendFailsCase.Run 0).calls = [Call.send, Call.test 0] :=
  ⟨rfl, rfl, rfl⟩

/-- C4 as stated fails: with no expectation at all (so every expectation
passes) and a payload that satisfies `Response`, a failing `Send` makes `Run`
return the error of `Send`, not a nil error. -/
theorem Run_pass_through_counterexample :
    (sendFailsBareCase.Session.Send sendFailsBareCase.Request 0).req.Result =
        Dyn.response (stubResponse int3 allValid) ∧
      sendFailsBareCase.Expectations = [] ∧
      (sendFailsBareCase.Run 0).out =
        Outcome.ret (some { Response := none }, some "connection refused") ∧
      (sendFailsBareCase.Run 0).out ≠ Outcome.ret (some { Response := none }, none) := by
  refine ⟨rfl, rfl, rfl, ?_⟩
  intro h
  have h2 : (sendFailsBareCase.Run 0).out =
      Outcome.ret (some { Response := none }, some "connection refused") := rfl
  rw [h2] at h
  cases h

/-- C4 (pass-through), amended.  `Send` returns a nil error, the decoded
payload satisfies `Response`, and every `Test` returns nil (`st j` being the
world state in which the test at position `j` is invoked): `Run` returns a
non-nil `Result` holding the response of `Send`, and a nil error. -/
theorem Run_pass_through {σ α ρ : Type} (c : Case σ α ρ) (s : σ) (resp : Response σ α)
    (st : Nat → σ)
    (hsend : (c.Session.Send c.Request s).err = none)
    (hresp : (c.Session.Send c.Request s).req.Result = Dyn.response resp)
    (hst : st 0 = (c.Session.Send c.Request s).st)
    (hpass : ∀ j e, c.Expectations[j]? = some e → e.Test resp (st j) = (none, st (j + 1))) :
    (c.Run s).out =
      Outcome.ret (some { Response := (c.Session.Send c.Request s).res }, none) := by
  have hloop := runLoop_all_pass resp c.Expectations 0
    (c.Session.Send c.Request s).err st hpass
  rw [hst, hsend] at hloop
  simp [Case.Run, hresp, Dyn.asResponse, hloop, hsend]

/-- Witness of C4 (scenario A): a payload with `Count() = 3` and
`ExpectResultCount(3)`; `Run` returns the result and a nil error. -/
theorem Run_pass_through_witness :
    (scenarioA.Run 0).out = Outcome.ret (some { Response := some "200 OK" }, none) :=
  Run_pass_through scenarioA 0 (stubResponse int3 allValid) (fun j => j + 1) rfl rfl rfl
    (by
      intro j e he
      have hlen : j < scenarioA.Expectations.length := (List.getElem?_eq_some.mp he).1
      have hj0 : j = 0 := by
        simp [scenarioA, Case.ExpectResultCount, Case.WithResponseAs, stubCase,
          Tester.Retrieve] at hlen
        exact hlen
      subst hj0
      have he1 : e = ⟨"Test Result Count", Case.ExpectResultCount.Test int3⟩ := by
        simpa [scenarioA, Case.ExpectResultCount, Case.WithResponseAs, stubCase,
          Tester.Retrieve] using he.symm
      subst he1
      rfl)

/-! ## The expectation catalog -/

/-- C5 as stated fails, on two inputs.  On a payload of two items whose
`GetNth` reports indices out of range, `n = -1` is below `Count()`, the test
of `ExpectResultNth(-1, 0)` fails with the error of `GetNth`, and `Match` on
the item returned would not fail.  On a payload of two items whose `GetNth`
answers every index, `n = 5` is not below `Count()`, yet the test of
`ExpectResultNth(5, 5)` calls `Match` and returns nil. -/
theorem ExpectResultNth_composition_counterexample :
    (intNeg1.val < ((stubResponse int2 allValid).Count 0).1.val ∧
      (Case.ExpectResultNth.Test intNeg1 0 (stubResponse int2 allValid) 0).1 =
        some "index out of range" ∧
      ((stubResponse int2 allValid).Match
        ((stubResponse int2 allValid).GetNth intNeg1 0).1.1 0
        ((stubResponse int2 allValid).GetNth intNeg1 0).2).1 = none) ∧
    (((laxResponse int2).Count 0).1.val ≤ int5.val ∧
      (Case.ExpectResultNth.Test int5 5 (laxResponse int2) 0).1 = none ∧
      (resultNthBody int5 5 (laxResponse int2) 0).calls =
        [RCall.GetNth int5, RCall.Match 5 5]) := by
  refine ⟨⟨?_, rfl, rfl⟩, ⟨?_, rfl, rfl⟩⟩ <;> decide

/-- C5 (Nth-match composition), amended.  The test of `ExpectResultNth(n, b)`
never reads `Count()`.  When `GetNth(n)` returns an error it returns that very
error and calls nothing but `GetNth`; when `GetNth(n)` returns the item `a`
and a nil error it calls `Match(a, b)` and returns what `Match` returns. -/
theorem ExpectResultNth_composition {σ α : Type} (R : Response σ α) (n : GoInt) (b : α)
    (s : σ) :
    (∀ msg, (R.GetNth n s).1.2 = some msg →
      (Case.ExpectResultNth.Test n b R s).1 = some msg ∧
        (resultNthBody n b R s).calls = [RCall.GetNth n]) ∧
    ((R.GetNth n s).1.2 = none →
      (Case.ExpectResultNth.Test n b R s).1 =
          (R.Match (R.GetNth n s).1.1 b (R.GetNth n s).2).1 ∧
        (resultNthBody n b R s).calls =
          [RCall.GetNth n, RCall.Match (R.GetNth n s).1.1 b]) := by
  constructor
  · intro msg h
    simp [Case.ExpectResultNth.Test, resultNthBody, h]
  · intro h
    simp [Case.ExpectResultNth.Test, resultNthBody, h]

/-- Witness of C5 (scenario D): on a payload of two items the test of
`ExpectResultNth(5, obj)` returns the out-of-range error of `GetNth` and never
calls `Match`; and `Run` reports that error. -/
theorem ExpectResultNth_composition_witness :
    ((Case.ExpectResultNth.Test int5 5 (stubResponse int2 allValid) 1).1 =
        some "index out of range" ∧
      (resultNthBody int5 5 (stubResponse int2 allValid) 1).calls = [RCall.GetNth int5]) ∧
    (scenarioD.Run 0).out = Outcome.ret (some { Response := some "200 OK" },
      some "Failed in test: \"Test #5 Result Valid\" Reason: \"index out of range\"") :=
  ⟨(ExpectResultNth_composition (stubResponse int2 allValid) int5 5 1).1
    "index out of range" rfl, rfl⟩

/-- C6 (count assertions are complements).  On the same payload in the same
state, the test of `ExpectResultCount(n)` returns nil exactly when the test of
`ExpectResultCountNot(n)` returns an error, and the other way round. -/
theorem ExpectResultCount_complement {σ α : Type} (R : Response σ α) (n : GoInt) (s : σ) :
    ((Case.ExpectResultCount.Test n R s).1 = none ↔
        (Case.ExpectResultCountNot.Test n R s).1 ≠ none) ∧
    ((Case.ExpectResultCountNot.Test n R s).1 = none ↔
        (Case.ExpectResultCount.Test n R s).1 ≠ none) := by
  by_cases h : (R.Count s).1 = n <;>
    simp [Case.ExpectResultCount.Test, Case.ExpectResultCountNot.Test, h]

/-- C7 (`ExpectResultCount`).  The test of `ExpectResultCount(n)` returns nil
exactly when `Count()` is `n`; when `Count()` differs from `n` its message is
`Result count is <count> (expected <n>)`, both in decimal.  A Case holding
only this expectation then returns that message wrapped under the description
`Test Result Count`; with `Count() = 2` and `n = 3` the error is
`Failed in test: "Test Result Count" Reason: "Result count is 2 (expected 3)"`. -/
theorem ExpectResultCount_spec {σ α ρ : Type} (c : Case σ α ρ) (s : σ) (R : Response σ α)
    (n : GoInt)
    (hexp : c.Expectations = [])
    (hresp : (c.Session.Send c.Request s).req.Result = Dyn.response R) :
    (∀ s1, (Case.ExpectResultCount.Test n R s1).1 = none ↔ (R.Count s1).1 = n) ∧
    (∀ s1, (R.Count s1).1 ≠ n →
      (Case.ExpectResultCount.Test n R s1).1 =
        some ("Result count is " ++ toString (R.Count s1).1.val ++
          " (expected " ++ toString n.val ++ ")")) ∧
    ((R.Count (c.Session.Send c.Request s).st).1 ≠ n →
      ((c.ExpectResultCount n).Run s).out =
        Outcome.ret (some { Response := (c.Session.Send c.Request s).res },
          some ("Failed in test: \"Test Result Count\" Reason: \"Result count is " ++
            toString (R.Count (c.Session.Send c.Request s).st).1.val ++
            " (expected " ++ toString n.val ++ ")\""))) ∧
    ((R.Count (c.Session.Send c.Request s).st).1.val = 2 → n.val = 3 →
      ((c.ExpectResultCount n).Run s).out =
        Outcome.ret (some { Response := (c.Session.Send c.Request s).res },
          some "Failed in test: \"Test Result Count\" Reason: \"Result count is 2 (expected 3)\"")) := by
  have hgen : (R.Count (c.Session.Send c.Request s).st).1 ≠ n →
      ((c.ExpectResultCount n).Run s).out =
        Outcome.ret (some { Response := (c.Session.Send c.Request s).res },
          some ("Failed in test: \"Test Result Count\" Reason: \"Result count is " ++
            toString (R.Count (c.Session.Send c.Request s).st).1.val ++
            " (expected " ++ toString n.val ++ ")\"")) := by
    intro h
    simp [Case.Run, Case.ExpectResultCount, hexp, hresp, Dyn.asResponse, runLoop,
      Case.ExpectResultCount.Test, h, failedInTest, resultCountMsg, fmtD, String.append_assoc]
    rw [← String.append_assoc]
    rfl
  refine ⟨?_, ?_, hgen, ?_⟩
  · intro s1
    by_cases h : (R.Count s1).1 = n <;> simp [Case.ExpectResultCount.Test, h]
  · intro s1 h
    simp [Case.ExpectResultCount.Test, h, resultCountMsg, fmtD, String.append_assoc]
  · intro h2 h3
    have hne : (R.Count (c.Session.Send c.Request s).st).1 ≠ n := by
      intro h
      rw [h, h3] at h2
      exact absurd h2 (by decide)
    rw [hgen hne, h2, h3]
    rfl

/-- Witness of C7 (scenario B): a payload with `Count() = 2` and
`ExpectResultCount(3)` on a Case without other expectations. -/
theorem ExpectResultCount_spec_witness :
    ((scenarioBBase.ExpectResultCount int3).Run 0).out =
      Outcome.ret (some { Response := some "200 OK" },
        some "Failed in test: \"Test Result Count\" Reason: \"Result count is 2 (expected 3)\"") :=
  (ExpectResultCount_spec scenarioBBase 0 (stubResponse int2 allValid) int3 rfl rfl).2.2.2
    rfl rfl

/-- What the builders of the catalog leave in `Expectations`. -/
theorem Expect_catalog_appends {σ α ρ : Type} (k : Case σ α ρ) :
    k.ExpectResultsValid.Expectations = k.Expectations ++
        [{ Desc := "Test Results Valid", Test := Case.ExpectResultsValid.Test }] ∧
      ∀ n, (k.ExpectResultCount n).Expectations = k.Expectations ++
        [{ Desc := "Test Result Count", Test := Case.ExpectResultCount.Test n }] :=
  ⟨rfl, fun _ => rfl⟩

/-- The successor index is `i + 1`, whatever the count read. -/
theorem GoInt.next_val (i count : GoInt) (h : i.val < count.val) :
    (i.next count h).val = i.val + 1 := rfl

/-- The loop of `ExpectResultsValid` entered at `i`, when `Count()` is always
`c`, `NthValid(j)` always answers `v j`, and `k` is the first invalid index from
`i` on: the error names `k`, and `NthValid` is called on `i..k` only. -/
theorem resultsValidLoop_first_invalid {σ α : Type} (R : Response σ α) (c : GoInt)
    (v : GoInt → GoError) (hCount : ∀ s, (R.Count s).1 = c)
    (hValid : ∀ i s, (R.NthValid i s).1 = v i)
    (k : GoInt) (m : String) (hk : k.val < c.val) (hm : v k = some m) :
    ∀ (d : Nat) (i : GoInt) (s : σ), (k.val - i.val).toNat = d → i.val ≤ k.val →
      (∀ j : GoInt, i.val ≤ j.val → j.val < k.val → v j = none) →
      (resultsValidLoop R i s).err = some (itemInvalidMsg k m) ∧
      (∀ j : GoInt, RCall.NthValid j ∈ (resultsValidLoop R i s).calls ↔
        i.val ≤ j.val ∧ j.val ≤ k.val) := by
  intro d
  induction d with
  | zero =>
    intro i s hd hik _
    have hik2 : i = k := Subtype.ext (by omega)
    subst hik2
    have hlt : i.val < (R.Count s).1.val := by rw [hCount]; exact hk
    rw [resultsValidLoop]
    simp only [hlt, dite_true, hValid, hm]
    refine ⟨trivial, ?_⟩
    intro j
    simp only [List.mem_cons, List.mem_singleton, reduceCtorEq, false_or,
      RCall.NthValid.injEq, List.not_mem_nil, or_false, Subtype.ext_iff]
    omega
  | succ d ih =>
    intro i s hd hik hpass
    have hik2 : i.val < k.val := by omega
    have hlt : i.val < (R.Count s).1.val := by rw [hCount]; omega
    have hvi : v i = none := hpass i (le_refl _) hik2
    rw [resultsValidLoop]
    simp only [hlt, dite_true, hValid, hvi]
    have hrec := ih (i.next (R.Count s).1 hlt) (R.NthValid i (R.Count s).2).2
      (by rw [GoInt.next_val]; omega) (by rw [GoInt.next_val]; omega)
      (fun j h1 h2 => hpass j (by rw [GoInt.next_val] at h1; omega) h2)
    refine ⟨hrec.1, ?_⟩
    intro j
    simp only [List.mem_cons, reduceCtorEq, false_or, RCall.NthValid.injEq, hrec.2 j,
      GoInt.next_val, Subtype.ext_iff]
    omega

/-- The loop of `ExpectResultsValid` entered at `i` returns nil when every
item from `i` on is valid. -/
theorem resultsValidLoop_all_valid {σ α : Type} (R : Response σ α) (c : GoInt)
    (v : GoInt → GoError) (hCount : ∀ s, (R.Count s).1 = c)
    (hValid : ∀ i s, (R.NthValid i s).1 = v i) :
    ∀ (d : Nat) (i : GoInt) (s : σ), (c.val - i.val).toNat = d →
      (∀ j : GoInt, i.val ≤ j.val → j.val < c.val → v j = none) →
      (resultsValidLoop R i s).err = none := by
  intro d
  induction d with
  | zero =>
    intro i s hd _
    have hnlt : ¬ i.val < (R.Count s).1.val := by rw [hCount]; omega
    rw [resultsValidLoop]
    simp only [hnlt, dite_false]
  | succ d ih =>
    intro i s hd hpass
    have hlt : i.val < (R.Count s).1.val := by rw [hCount]; omega
    have hvi : v i = none := hpass i (le_refl _) (by omega)
    rw [resultsValidLoop]
    simp only [hlt, dite_true, hValid, hvi]
    exact ih (i.next (R.Count s).1 hlt) (R.NthValid i (R.Count s).2).2
      (by rw [GoInt.next_val]; omega)
      (fun j h1 h2 => hpass j (by rw [GoInt.next_val] at h1; omega) h2)

/-- When the loop of `ExpectResultsValid` entered at `i` returns nil, every
item from `i` on is valid. -/
theorem resultsValidLoop_nil_valid {σ α : Type} (R : Response σ α) (c : GoInt)
    (v : GoInt → GoError) (hCount : ∀ s, (R.Count s).1 = c)
    (hValid : ∀ i s, (R.NthValid i s).1 = v i) :
    ∀ (d : Nat) (i : GoInt) (s : σ), (c.val - i.val).toNat = d →
      (resultsValidLoop R i s).err = none →
      ∀ j : GoInt, i.val ≤ j.val → j.val < c.val → v j = none := by
  intro d
  induction d with
  | zero =>
    intro i s hd _ j h1 h2
    omega
  | succ d ih =>
    intro i s hd hnil j h1 h2
    have hlt : i.val < (R.Count s).1.val := by rw [hCount]; omega
    rw [resultsValidLoop] at hnil
    simp only [hlt, dite_true, hValid] at hnil
    cases hvi : v i with
    | some msg =>
      rw [hvi] at hnil
      cases hnil
    | none =>
      rw [hvi] at hnil
      by_cases hji : j.val = i.val
      · have hj : j = i := Subtype.ext hji
        rw [hj]
        exact hvi
      · exact ih (i.next (R.Count s).1 hlt) (R.NthValid i (R.Count s).2).2
          (by rw [GoInt.next_val]; omega) hnil j (by rw [GoInt.next_val]; omega) h2

/-- C8 (`ExpectResultsValid`).  `Count()` always returns `c` and `NthValid(i)`
always answers `v i`.  The test returns nil exactly when `v i` is nil for
every `i` of `[0, c)`.  Otherwise, with `i` the smallest invalid index and `m`
its message, the test returns `Item <i> invalid: <m>`, and the indices on
which `NthValid` was called are exactly `0..i`: none greater than `i`.  A Case
holding only this expectation then returns that message wrapped under the
description `Test Results Valid`. -/
theorem ExpectResultsValid_spec {σ α ρ : Type} (R : Response σ α) (c : GoInt)
    (v : GoInt → GoError)
    (hCount : ∀ s1, (R.Count s1).1 = c)
    (hValid : ∀ i s1, (R.NthValid i s1).1 = v i) :
    (∀ s, (Case.ExpectResultsValid.Test R s).1 = none ↔
      ∀ i : GoInt, 0 ≤ i.val → i.val < c.val → v i = none) ∧
    (∀ (i : GoInt) (m : String), 0 ≤ i.val → i.val < c.val → v i = some m →
      (∀ j : GoInt, 0 ≤ j.val → j.val < i.val → v j = none) →
      (∀ s, (Case.ExpectResultsValid.Test R s).1 =
          some ("Item " ++ toString i.val ++ " invalid: " ++ m) ∧
        ∀ j : GoInt, RCall.NthValid j ∈ (resultsValidLoop R GoInt.zero s).calls ↔
          0 ≤ j.val ∧ j.val ≤ i.val) ∧
      (∀ (k : Case σ α ρ) (s : σ), k.Expectations = [] →
        (k.Session.Send k.Request s).req.Result = Dyn.response R →
        (k.ExpectResultsValid.Run s).out =
          Outcome.ret (some { Response := (k.Session.Send k.Request s).res },
            some ("Failed in test: \"Test Results Valid\" Reason: \"" ++
              ("Item " ++ toString i.val ++ " invalid: " ++ m) ++ "\"")))) := by
  refine ⟨fun s => ⟨?_, ?_⟩, ?_⟩
  · intro h
    exact resultsValidLoop_nil_valid R c v hCount hValid _ GoInt.zero s rfl h
  · intro h
    exact resultsValidLoop_all_valid R c v hCount hValid _ GoInt.zero s rfl h
  · intro i m h0 hlt hm hmin
    have htest : ∀ s, (Case.ExpectResultsValid.Test R s).1 =
          some ("Item " ++ toString i.val ++ " invalid: " ++ m) ∧
        ∀ j : GoInt, RCall.NthValid j ∈ (resultsValidLoop R GoInt.zero s).calls ↔
          0 ≤ j.val ∧ j.val ≤ i.val := fun s =>
      resultsValidLoop_first_invalid R c v hCount hValid i m hlt hm _ GoInt.zero s rfl
        h0 hmin
    refine ⟨htest, ?_⟩
    intro k s hexp hresp
    obtain ⟨sEnd, hEnd⟩ : ∃ x,
        (Case.ExpectResultsValid.Test R (k.Session.Send k.Request s).st).2 = x := ⟨_, rfl⟩
    have hpair : Case.ExpectResultsValid.Test R (k.Session.Send k.Request s).st =
        (some ("Item " ++ toString i.val ++ " invalid: " ++ m), sEnd) :=
      Prod.ext (htest _).1 hEnd
    have hrun : runLoop R (k.ExpectResultsValid).Expectations 0
        (k.Session.Send k.Request s).err (k.Session.Send k.Request s).st =
        ⟨some (failedInTest "Test Results Valid"
          ("Item " ++ toString i.val ++ " invalid: " ++ m)), sEnd, [Call.test 0]⟩ :=
      runLoop_first_failure R _ 0 _ (fun _ => (k.Session.Send k.Request s).st) 0
        ⟨"Test Results Valid", Case.ExpectResultsValid.Test⟩ _ sEnd
        (fun j e hj => absurd hj (Nat.not_lt_zero j))
        (by rw [(Expect_catalog_appends k).1, hexp]; rfl) hpair
    have hresp2 : (k.ExpectResultsValid.Session.Send k.ExpectResultsValid.Request s).req.Result
        = Dyn.response R := hresp
    have hrun2 : runLoop R (k.ExpectResultsValid).Expectations 0
        (k.ExpectResultsValid.Session.Send k.ExpectResultsValid.Request s).err
        (k.ExpectResultsValid.Session.Send k.ExpectResultsValid.Request s).st =
        ⟨some (failedInTest "Test Results Valid"
          ("Item " ++ toString i.val ++ " invalid: " ++ m)), sEnd, [Call.test 0]⟩ := hrun
    rw [Case.Run]
    simp only [hresp2, Dyn.asResponse]
    rw [hrun2]
    rfl

/-- Witness of C8 (scenario C): `NthValid(1)` answers "missing field x"; the
test and `Run` report item 1. -/
theorem ExpectResultsValid_spec_witness :
    (Case.ExpectResultsValid.Test (stubResponse int3 item1Invalid) 1).1 =
        some "Item 1 invalid: missing field x" ∧
      (scenarioCBase.ExpectResultsValid.Run 0).out =
        Outcome.ret (some { Response := some "200 OK" },
          some "Failed in test: \"Test Results Valid\" Reason: \"Item 1 invalid: missing field x\"") := by
  have hs : "Item " ++ toString int1.val ++ " invalid: " ++ "missing field x" =
      "Item 1 invalid: missing field x" := by decide
  have h := (@ExpectResultsValid_spec Nat Int String (stubResponse int3 item1Invalid) int3
    item1Invalid (fun _ => rfl) (fun _ _ => rfl)).2 int1 "missing field x" (by decide) (by decide) rfl
    (by
      intro j h0 h1
      have hj : j.val ≠ 1 := by
        have : int1.val = 1 := rfl
        omega
      simp [item1Invalid, hj])
  rw [hs] at h
  exact ⟨(h.1 1).1, h.2 scenarioCBase 0 rfl rfl⟩

/-- C9 (append-only builders).  Each `Expect*` builder leaves `Request`,
`Session` and `Tester` as they were and appends exactly one expectation to
`Expectations`; that of `ExpectResultsToPass(desc, test)` is `{desc, test}`. -/
theorem Expect_append_only {σ α ρ : Type} (c : Case σ α ρ) (n : GoInt) (b : α)
    (desc : String) (test : Response σ α → σ → GoError × σ) :
    ((c.ExpectResultCount n).Expectations = c.Expectations ++
        [{ Desc := "Test Result Count", Test := Case.ExpectResultCount.Test n }] ∧
      (c.ExpectResultCount n).Request = c.Request ∧
      (c.ExpectResultCount n).Session = c.Session ∧
      (c.ExpectResultCount n).Tester = c.Tester) ∧
    ((c.ExpectResultCountNot n).Expectations = c.Expectations ++
        [{ Desc := "Test Result Count", Test := Case.ExpectResultCountNot.Test n }] ∧
      (c.ExpectResultCountNot n).Request = c.Request ∧
      (c.ExpectResultCountNot n).Session = c.Session ∧
      (c.ExpectResultCountNot n).Tester = c.Tester) ∧
    (c.ExpectResultsValid.Expectations = c.Expectations ++
        [{ Desc := "Test Results Valid", Test := Case.ExpectResultsValid.Test }] ∧
      c.ExpectResultsValid.Request = c.Request ∧
      c.ExpectResultsValid.Session = c.Session ∧
      c.ExpectResultsValid.Tester = c.Tester) ∧
    ((c.ExpectResultNth n b).Expectations = c.Expectations ++
        [{ Desc := "Test #" ++ toString n.val ++ " Result Valid",
           Test := Case.ExpectResultNth.Test n b }] ∧
      (c.ExpectResultNth n b).Request = c.Request ∧
      (c.ExpectResultNth n b).Session = c.Session ∧
      (c.ExpectResultNth n b).Tester = c.Tester) ∧
    ((c.ExpectResultsToPass desc test).Expectations = c.Expectations ++
        [{ Desc := desc, Test := test }] ∧
      (c.ExpectResultsToPass desc test).Request = c.Request ∧
      (c.ExpectResultsToPass desc test).Session = c.Session ∧
      (c.ExpectResultsToPass desc test).Tester = c.Tester) :=
  ⟨⟨rfl, rfl, rfl, rfl⟩, ⟨rfl, rfl, rfl, rfl⟩, ⟨rfl, rfl, rfl, rfl⟩, ⟨rfl, rfl, rfl, rfl⟩,
    ⟨rfl, rfl, rfl, rfl⟩⟩

/-- C10 as stated fails: the result slot of the Case is nil, never set by
`WithResponseAs`, but `Send` stores a `Response` in it through the request
pointer; `Run` reads the slot after `Send`, does not panic, tries the one
expectation and returns a nil error. -/
theorem Run_config_error_counterexample :
    lateSlotCase.Request.Result = Dyn.nil ∧
      lateSlotCase.Request.Result.asResponse = none ∧
      (lateSlotCase.Run 0).out = Outcome.ret (some { Response := some "200 OK" }, none) ∧
      (lateSlotCase.Run 0).out ≠ Outcome.panic PanicValue.typeAssertion ∧
      (lateSlotCase.Run 0).calls = [Call.send, Call.test 0] := by
  refine ⟨rfl, rfl, rfl, ?_, rfl⟩
  intro h
  have h2 : (lateSlotCase.Run 0).out =
      Outcome.ret (some { Response := some "200 OK" }, none) := rfl
  rw [h2] at h
  cases h

/-- C10 (configuration error), amended.  When the result slot, as `Run` reads
it once `Send` has returned, holds no `Response` (nil, or a value of another
type), `Run` panics on the type assertion and returns nothing, whatever the
expectations: it has called `Send` and no `Test`. -/
theorem Run_config_error_panics {σ α ρ : Type} (c : Case σ α ρ) (s : σ)
    (hbad : ∀ R, (c.Session.Send c.Request s).req.Result ≠ Dyn.response R) :
    (c.Run s).out = Outcome.panic PanicValue.typeAssertion ∧
      (c.Run s).calls = [Call.send] := by
  have hnone : (c.Session.Send c.Request s).req.Result.asResponse = none := by
    cases h : (c.Session.Send c.Request s).req.Result with
    | nil => rfl
    | other v => rfl
    | response R => exact absurd h (hbad R)
  simp [Case.Run, hnone]

/-- Witness of C10: a Case fresh from `Retrieve`, its result slot never set,
left alone by `Send`, and without expectations, panics; so does one whose
slot holds a value of another type, before its one expectation is tried. -/
theorem Run_config_error_panics_witness :
    ((stubCase okSession).Request.Result = Dyn.nil ∧
      (stubCase okSession).Expectations = [] ∧
      ((stubCase okSession).Run 0).out = Outcome.panic PanicValue.typeAssertion ∧
      ((stubCase okSession).Run 0).calls = [Call.send]) ∧
    ((misconfiguredCase.Run 0).out = Outcome.panic PanicValue.typeAssertion ∧
      (misconfiguredCase.Run 0).calls = [Call.send]) :=
  ⟨⟨rfl, rfl, Run_config_error_panics (stubCase okSession) 0 (fun _ h => by cases h)⟩,
    Run_config_error_panics misconfiguredCase 0 (fun _ h => by cases h)⟩

/-! ## RunOrPanic, the Result, the verbs of Tester -/

/-- C11 (`RunOrPanic`).  `RunOrPanic` panics carrying the error `e` exactly when
`Run` returns the non-nil error `e`; when `Run` returns a nil error it returns
the `Result` of `Run`; it leaves the world as `Run` does and makes no call of
its own. -/
theorem RunOrPanic_thin_layer {σ α ρ : Type} (c : Case σ α ρ) (s : σ) :
    (∀ e, (c.RunOrPanic s).out = Outcome.panic (PanicValue.error e) ↔
      ∃ r, (c.Run s).out = Outcome.ret (r, some e)) ∧
    (∀ r, (c.Run s).out = Outcome.ret (r, none) → (c.RunOrPanic s).out = Outcome.ret r) ∧
    (c.RunOrPanic s).st = (c.Run s).st ∧
    (c.RunOrPanic s).calls = (c.Run s).calls := by
  cases hres : (c.Session.Send c.Request s).req.Result.asResponse with
  | none => simp [Case.RunOrPanic, Case.Run, hres]
  | some resp =>
    cases herr : (runLoop resp c.Expectations 0 (c.Session.Send c.Request s).err
        (c.Session.Send c.Request s).st).err with
    | none => simp [Case.RunOrPanic, Case.Run, hres, herr]
    | some e0 => simp [Case.RunOrPanic, Case.Run, hres, herr]

/-- Witness of C11: on scenario B `Run` returns an error and `RunOrPanic`
panics with it; on scenario A `Run` returns a nil error and `RunOrPanic`
returns the result. -/
theorem RunOrPanic_thin_layer_witness :
    ((scenarioBBase.ExpectResultCount int3).RunOrPanic 0).out = Outcome.panic (PanicValue.error
        "Failed in test: \"Test Result Count\" Reason: \"Result count is 2 (expected 3)\"") ∧
      (scenarioA.RunOrPanic 0).out = Outcome.ret (some { Response := some "200 OK" }) :=
  ⟨((RunOrPanic_thin_layer (scenarioBBase.ExpectResultCount int3) 0).1 _).mpr ⟨_, rfl⟩,
    (RunOrPanic_thin_layer scenarioA 0).2.1 _ rfl⟩

/-- C12 (the Result is returned whatever the verdict).  When the decoded
payload satisfies `Response`, `Run` returns, with some error or none, and its
`Result` is non-nil and holds the response that `Send` returned. -/
theorem Run_result_always {σ α ρ : Type} (c : Case σ α ρ) (s : σ) (resp : Response σ α)
    (hresp : (c.Session.Send c.Request s).req.Result = Dyn.response resp) :
    ∃ err, (c.Run s).out =
      Outcome.ret (some { Response := (c.Session.Send c.Request s).res }, err) := by
  refine ⟨(runLoop resp c.Expectations 0 (c.Session.Send c.Request s).err
    (c.Session.Send c.Request s).st).err, ?_⟩
  simp [Case.Run, hresp, Dyn.asResponse]

/-- Witness of C12: the expectation of scenario A passes, the one of
scenario B fails; both runs return the response of `Send`. -/
theorem Run_result_always_witness :
    (∃ err, (scenarioA.Run 0).out = Outcome.ret (some { Response := some "200 OK" }, err)) ∧
      (∃ err, ((scenarioBBase.ExpectResultCount int3).Run 0).out =
        Outcome.ret (some { Response := some "200 OK" }, err)) :=
  ⟨Run_result_always scenarioA 0 (stubResponse int3 allValid) rfl,
    Run_result_always (scenarioBBase.ExpectResultCount int3) 0 (stubResponse int2 allValid) rfl⟩

/-- C13 (verb-level construction).  `Create(p)` is POST on the base url with
body `p`; `Retrieve(id)` is GET on `<base>/<id>` without body; `Update(id, p)`
is PUT on `<base>/<id>` with body `p`; `Delete(id)` is DELETE on `<base>/<id>`
without body; each Case has no expectation and `Tester = t`. -/
theorem Tester_verbs {σ α ρ : Type} (t : Tester) (napping : Session σ α ρ) (id : String)
    (p : Option α) :
    ((Tester.Create t napping p).Request.Method = "POST" ∧
      (Tester.Create t napping p).Request.Url = t.Url ∧
      (Tester.Create t napping p).Request.Payload = p ∧
      (Tester.Create t napping p).Expectations = [] ∧
      (Tester.Create t napping p).Tester = some t) ∧
    ((Tester.Retrieve t napping id).Request.Method = "GET" ∧
      (Tester.Retrieve t napping id).Request.Url = t.Url ++ "/" ++ id ∧
      (Tester.Retrieve t napping id).Request.Payload = none ∧
      (Tester.Retrieve t napping id).Expectations = [] ∧
      (Tester.Retrieve t napping id).Tester = some t) ∧
    ((Tester.Update t napping id p).Request.Method = "PUT" ∧
      (Tester.Update t napping id p).Request.Url = t.Url ++ "/" ++ id ∧
      (Tester.Update t napping id p).Request.Payload = p ∧
      (Tester.Update t napping id p).Expectations = [] ∧
      (Tester.Update t napping id p).Tester = some t) ∧
    ((Tester.Delete t napping id).Request.Method = "DELETE" ∧
      (Tester.Delete t napping id).Request.Url = t.Url ++ "/" ++ id ∧
      (Tester.Delete t napping id).Request.Payload = none ∧
      (Tester.Delete t napping id).Expectations = [] ∧
      (Tester.Delete t napping id).Tester = some t) :=
  ⟨⟨rfl, rfl, rfl, rfl, rfl⟩, ⟨rfl, rfl, rfl, rfl, rfl⟩, ⟨rfl, rfl, rfl, rfl, rfl⟩,
    ⟨rfl, rfl, rfl, rfl, rfl⟩⟩

/-- Witness of C13: the four verbs on the tester of `http://api/items`. -/
theorem Tester_verbs_witness :
    (Tester.Create itemsTester okSession (some 42)).Request.Url = "http://api/items" ∧
      (Tester.Retrieve itemsTester okSession "7").Request.Url = "http://api/items/7" ∧
      (Tester.Update itemsTester okSession "7" (some 42)).Request.Url = "http://api/items/7" ∧
      (Tester.Delete itemsTester okSession "7").Request.Url = "http://api/items/7" :=
  ⟨(Tester_verbs itemsTester okSession "7" (some 42)).1.2.1,
    (Tester_verbs itemsTester okSession "7" (some 42)).2.1.2.1,
    (Tester_verbs itemsTester okSession "7" (some 42)).2.2.1.2.1,
    (Tester_verbs itemsTester okSession "7" (some 42)).2.2.2.2.1⟩

/-! ## ExpectResultCountNot, the error of Send, vacuous validity -/

/-- C14 (`ExpectResultCountNot`).  The test of `ExpectResultCountNot(n)` fails
exactly when `Count()` is `n`, and then with the message
`Result count is <n> (expected <n>)`; the expectation appended carries the
description `Test Result Count`, as the one of `ExpectResultCount` does. -/
theorem ExpectResultCountNot_spec {σ α ρ : Type} (R : Response σ α) (n : GoInt) :
    (∀ s, (Case.ExpectResultCountNot.Test n R s).1 ≠ none ↔ (R.Count s).1 = n) ∧
    (∀ s, (R.Count s).1 = n →
      (Case.ExpectResultCountNot.Test n R s).1 =
        some ("Result count is " ++ toString n.val ++ " (expected " ++ toString n.val ++ ")")) ∧
    (∀ c : Case σ α ρ,
      (c.ExpectResultCountNot n).Expectations = c.Expectations ++
          [{ Desc := "Test Result Count", Test := Case.ExpectResultCountNot.Test n }] ∧
        (c.ExpectResultCount n).Expectations = c.Expectations ++
          [{ Desc := "Test Result Count", Test := Case.ExpectResultCount.Test n }]) := by
  refine ⟨?_, ?_, fun c => ⟨rfl, rfl⟩⟩
  · intro s
    by_cases h : (R.Count s).1 = n <;> simp [Case.ExpectResultCountNot.Test, h]
  · intro s h
    simp [Case.ExpectResultCountNot.Test, h, resultCountMsg, fmtD, String.append_assoc]

/-- Witness of C14: on a payload of three items the test of
`ExpectResultCountNot(3)` fails, and `Run` reports it. -/
theorem ExpectResultCountNot_spec_witness :
    (Case.ExpectResultCountNot.Test int3 (stubResponse int3 allValid) 1).1 =
        some "Result count is 3 (expected 3)" ∧
      (countNotCase.Run 0).out = Outcome.ret (some { Response := some "200 OK" },
        some "Failed in test: \"Test Result Count\" Reason: \"Result count is 3 (expected 3)\"") :=
  ⟨(@ExpectResultCountNot_spec Nat Int String (stubResponse int3 allValid) int3).2.1 1 rfl,
    rfl⟩

/-- Once the loop of `Run` has an expectation to try, the value `err` had on
entry is lost. -/
theorem runLoop_forgets_err {σ α : Type} (resp : Response σ α)
    (es : List (Expectation σ α)) (i : Nat) (err0 err1 : GoError) (s : σ) (hne : es ≠ []) :
    runLoop resp es i err0 s = runLoop resp es i err1 s := by
  cases es with
  | nil => exact absurd rfl hne
  | cons e es => simp [runLoop]

/-- The error that the loop of `Run` leaves after trying an expectation is nil
or the wrapped message of one of the expectations. -/
theorem runLoop_err_shape {σ α : Type} (resp : Response σ α) :
    ∀ (es : List (Expectation σ α)) (i : Nat) (s : σ),
      (runLoop resp es i none s).err = none ∨
        ∃ e msg, e ∈ es ∧ (runLoop resp es i none s).err = some (failedInTest e.Desc msg) := by
  intro es
  induction es with
  | nil => intro i s; exact Or.inl rfl
  | cons e es ih =>
    intro i s
    cases h : e.Test resp s with
    | mk err s1 =>
      cases err with
      | some msg =>
        refine Or.inr ⟨e, msg, List.mem_cons_self e es, ?_⟩
        simp [runLoop, h]
      | none =>
        rcases ih (i + 1) s1 with h1 | ⟨e1, msg, hmem, h1⟩
        · left
          simp [runLoop, h, h1]
        · right
          exact ⟨e1, msg, List.mem_cons_of_mem e hmem, by simp [runLoop, h, h1]⟩

/-- C15 (the error of `Send` is lost to the expectations).  The decoded payload
satisfies `Response`.  With at least one expectation, a second run that
differs only in what `Send` returned as error returns the same error, and
that error is nil or the wrapped message of an expectation; so when `Send`
fails and every expectation passes `Run` returns a nil error.  With no
expectation `Run` returns the error of `Send`. -/
theorem Run_error_ignores_send {σ α ρ : Type} (c : Case σ α ρ) (s : σ)
    (resp : Response σ α)
    (hresp : (c.Session.Send c.Request s).req.Result = Dyn.response resp) :
    (c.Expectations ≠ [] →
      ∀ (c2 : Case σ α ρ) (s2 : σ), c2.Expectations = c.Expectations →
        (c2.Session.Send c2.Request s2).req.Result = Dyn.response resp →
        (c2.Session.Send c2.Request s2).st = (c.Session.Send c.Request s).st →
        ∃ err,
          (c.Run s).out =
            Outcome.ret (some { Response := (c.Session.Send c.Request s).res }, err) ∧
          (c2.Run s2).out =
            Outcome.ret (some { Response := (c2.Session.Send c2.Request s2).res }, err) ∧
          (err = none ∨ ∃ e msg, e ∈ c.Expectations ∧
            err = some ("Failed in test: \"" ++ e.Desc ++ "\" Reason: \"" ++ msg ++ "\""))) ∧
    (c.Expectations ≠ [] →
      ∀ (st : Nat → σ), st 0 = (c.Session.Send c.Request s).st →
        (∀ j e, c.Expectations[j]? = some e → e.Test resp (st j) = (none, st (j + 1))) →
        (c.Run s).out =
          Outcome.ret (some { Response := (c.Session.Send c.Request s).res }, none)) ∧
    (c.Expectations = [] →
      (c.Run s).out = Outcome.ret (some { Response := (c.Session.Send c.Request s).res },
        (c.Session.Send c.Request s).err)) := by
  refine ⟨?_, ?_, ?_⟩
  · intro hne c2 s2 hexp hresp2 hst
    refine ⟨(runLoop resp c.Expectations 0 none (c.Session.Send c.Request s).st).err, ?_, ?_, ?_⟩
    · rw [runLoop_forgets_err resp c.Expectations 0 none (c.Session.Send c.Request s).err _ hne]
      simp [Case.Run, hresp, Dyn.asResponse]
    · rw [runLoop_forgets_err resp c.Expectations 0 none (c2.Session.Send c2.Request s2).err _
        hne, ← hst, ← hexp]
      simp [Case.Run, hresp2, Dyn.asResponse]
    · exact runLoop_err_shape resp c.Expectations 0 _
  · intro hne st hst hpass
    have hloop := runLoop_all_pass resp c.Expectations 0
      (c.Session.Send c.Request s).err st hpass
    rw [hst] at hloop
    have hemp : c.Expectations.isEmpty = false := by
      cases hc : c.Expectations with
      | nil => exact absurd hc hne
      | cons e es => rfl
    simp [Case.Run, hresp, Dyn.asResponse, hloop, hemp]
  · intro hemp
    simp [Case.Run, hresp, Dyn.asResponse, hemp, runLoop]

/-- Witness of C15: scenario A behind a session whose `Send` fails returns the
nil error that scenario A returns; and without expectations the error of
`Send` comes back. -/
theorem Run_error_ignores_send_witness :
    (∃ err,
      (sendResetCase.Run 0).out = Outcome.ret (some { Response := some "200 OK" }, err) ∧
      (scenarioA.Run 0).out = Outcome.ret (some { Response := some "200 OK" }, err) ∧
      (err = none ∨ ∃ e msg, e ∈ sendResetCase.Expectations ∧
        err = some ("Failed in test: \"" ++ e.Desc ++ "\" Reason: \"" ++ msg ++ "\""))) ∧
    (sendResetCase.Session.Send sendResetCase.Request 0).err = some "connection reset" ∧
    (sendResetCase.Run 0).out = Outcome.ret (some { Response := some "200 OK" }, none) ∧
    (sendFailsBareCase.Run 0).out =
      Outcome.ret (some { Response := none }, some "connection refused") :=
  ⟨(Run_error_ignores_send sendResetCase 0 (stubResponse int3 allValid) rfl).1
      (by simp [sendResetCase, Case.ExpectResultCount]) scenarioA 0 rfl rfl rfl,
    rfl, rfl,
    (Run_error_ignores_send sendFailsBareCase 0 (stubResponse int3 allValid) rfl).2.2 rfl⟩

/-- Every call of `NthValid` in the log of the loop of `ExpectResultsValid`
entered at `i` is at an index from `i` on, and the entry right before it is
a call of `Count` that returned more than that index. -/
theorem resultsValidLoop_guarded {σ α : Type} (R : Response σ α) :
    ∀ (d : Nat) (i : GoInt) (s : σ), (maxInt - i.val).toNat = d →
      ∀ (pre post : List (RCall α)) (j : GoInt),
        (resultsValidLoop R i s).calls = pre ++ RCall.NthValid j :: post →
        i.val ≤ j.val ∧ ∃ pre1 c, pre = pre1 ++ [RCall.Count c] ∧ j.val < c.val := by
  intro d
  induction d with
  | zero =>
    intro i s hd pre post j h
    have hnlt : ¬ i.val < (R.Count s).1.val := by
      have h1 := (R.Count s).1.property.2
      have h2 := i.property.2
      omega
    rw [resultsValidLoop] at h
    simp only [hnlt, dite_false] at h
    rcases pre with _ | ⟨x, pre2⟩ <;> simp at h
  | succ d ih =>
    intro i s hd pre post j h
    by_cases hlt : i.val < (R.Count s).1.val
    · rw [resultsValidLoop] at h
      simp only [hlt, dite_true] at h
      cases hv : (R.NthValid i (R.Count s).2).1 with
      | some msg =>
        rw [hv] at h
        rcases pre with _ | ⟨x, _ | ⟨y, pre3⟩⟩ <;> simp at h
        obtain ⟨hx, hij, _⟩ := h
        subst hx hij
        exact ⟨le_refl _, [], (R.Count s).1, rfl, hlt⟩
      | none =>
        rw [hv] at h
        rcases pre with _ | ⟨x, _ | ⟨y, pre3⟩⟩ <;> simp at h
        · obtain ⟨hx, hij, _⟩ := h
          subst hx hij
          exact ⟨le_refl _, [], (R.Count s).1, rfl, hlt⟩
        · obtain ⟨hx, hy, hrest⟩ := h
          subst hx hy
          have hrec := ih (i.next (R.Count s).1 hlt) (R.NthValid i (R.Count s).2).2
            (by rw [GoInt.next_val]; omega) pre3 post j hrest
          rw [GoInt.next_val] at hrec
          obtain ⟨hle, pre1, c, hpre, hjc⟩ := hrec
          refine ⟨by omega, RCall.Count (R.Count s).1 :: RCall.NthValid i :: pre1, c, ?_, hjc⟩
          rw [hpre]
          rfl
    · rw [resultsValidLoop] at h
      simp only [hlt, dite_false] at h
      rcases pre with _ | ⟨x, pre2⟩ <;> simp at h

/-- C16 (vacuous validity).  When the first `Count()` returns zero or less, the
test of `ExpectResultsValid` returns nil and has called `Count` once and
`NthValid` never.  For every payload, each call of `NthValid` in the log of
the test is at an index `j >= 0`, and the entry right before it is the call
of `Count` that returned a value above `j`. -/
theorem ExpectResultsValid_guarded {σ α : Type} (R : Response σ α) (s : σ) :
    ((R.Count s).1.val ≤ 0 →
      (Case.ExpectResultsValid.Test R s).1 = none ∧
        (resultsValidLoop R GoInt.zero s).calls = [RCall.Count (R.Count s).1]) ∧
    (∀ (pre post : List (RCall α)) (j : GoInt),
      (resultsValidLoop R GoInt.zero s).calls = pre ++ RCall.NthValid j :: post →
      0 ≤ j.val ∧ ∃ pre1 c, pre = pre1 ++ [RCall.Count c] ∧ j.val < c.val) := by
  constructor
  · intro h
    have hnlt : ¬ GoInt.zero.val < (R.Count s).1.val := by
      have h0 : GoInt.zero.val = 0 := rfl
      omega
    simp only [Case.ExpectResultsValid.Test]
    rw [resultsValidLoop]
    simp only [hnlt, dite_false, and_self]
  · intro pre post j h
    exact resultsValidLoop_guarded R _ GoInt.zero s rfl pre post j h

/-- Witness of C16: on an empty payload, and on one whose `Count()` is -1, the
test passes and `NthValid` is not called. -/
theorem ExpectResultsValid_guarded_witness :
    ((Case.ExpectResultsValid.Test (stubResponse int0 item1Invalid) 0).1 = none ∧
      (resultsValidLoop (stubResponse int0 item1Invalid) GoInt.zero 0).calls =
        [RCall.Count int0]) ∧
    ((Case.ExpectResultsValid.Test (stubResponse intNeg1 item1Invalid) 0).1 = none ∧
      (resultsValidLoop (stubResponse intNeg1 item1Invalid) GoInt.zero 0).calls =
        [RCall.Count intNeg1]) :=
  ⟨(ExpectResultsValid_guarded (stubResponse int0 item1Invalid) 0).1 (by decide),
    (ExpectResultsValid_guarded (stubResponse intNeg1 item1Invalid) 0).1 (by decide)⟩

end Restit
